import Mathlib

/-!
Shallow embedding of `src/oauthlib/oauth2/draft25/grant_types.py`:
the OAuth2 draft-25 authorization-grant logic (shared request validator,
Authorization Code grant, Implicit grant).

Python attributes that may be `None` are modelled as `Option`; Python
truthiness of strings and lists is made explicit (`strTruthy`,
`scopesTruthy`).  Python dictionaries are modelled as insertion-ordered
association lists over a value type `PyVal` that distinguishes strings,
integers and `None`.  Collaborator hooks (the methods raising
`NotImplementedError` in the source) are fields of a record the grant
functions take as their `self` argument; the save hooks are modelled by
recording the arguments of the call in the result value.  Fresh opaque
tokens (`generate_token`, which lives in `oauthlib.common`, outside this
repository slice) are passed in as explicit arguments.
-/

/-- Python value appearing in the dictionaries of the source: a string,
an integer, or the value None. -/
inductive PyVal where
  | str (s : String)
  | int (n : Nat)
  | none
deriving DecidableEq, Repr

/-- Insertion-ordered Python dictionary, as an association list. -/
abbrev PyDict := List (String × PyVal)

/-- Truthiness of an optional Python string: None and the empty string
are falsy. -/
def strTruthy : Option String → Bool
  | Option.none => false
  | Option.some s => !s.isEmpty

/-- Truthiness of an optional Python list: None and the empty list are
falsy. -/
def scopesTruthy : Option (List String) → Bool
  | Option.none => false
  | Option.some l => !l.isEmpty

/-- Lookup in a Python dictionary (first binding of the key). -/
def pyGet (d : PyDict) (k : String) : Option PyVal :=
  (d.find? (fun p => p.1 == k)).map (fun p => p.2)

/-- dict.get on the raw wire parameters (string-valued). -/
def paramsGet (params : List (String × String)) (k : String) : Option String :=
  (params.find? (fun p => p.1 == k)).map (fun p => p.2)

/-- Lift an optional Python string into a `PyVal` (None stays None). -/
def pyOfOpt : Option String → PyVal
  | Option.none => PyVal.none
  | Option.some s => PyVal.str s

/-- The mutable Request object of the source: wire parameters plus the
fields the validator reads and fills. -/
structure Request where
  client_id : Option String := none
  response_type : Option String := none
  redirect_uri : Option String := none
  scopes : Option (List String) := none
  state : Option String := none
  grant_type : Option String := none
  code : Option String := none
  client : Option String := none
  params : List (String × String) := []
deriving DecidableEq, Repr

/-- The closed set of protocol error kinds raised in the source
(`errors` module). -/
inductive ErrorKind where
  | invalidRequest
  | unauthorizedClient
  | unsupportedResponseType
  | invalidScope
  | accessDenied
  | unsupportedGrantType
  | invalidGrant
deriving DecidableEq, Repr

/-- Wire code of an error kind. -/
def ErrorKind.code : ErrorKind → String
  | .invalidRequest => "invalid_request"
  | .unauthorizedClient => "unauthorized_client"
  | .unsupportedResponseType => "unsupported_response_type"
  | .invalidScope => "invalid_scope"
  | .accessDenied => "access_denied"
  | .unsupportedGrantType => "unsupported_grant_type"
  | .invalidGrant => "invalid_grant"

/-- Modelled from the spec: the `errors` module imported by the source is
not under src/.  A ProtocolError is `{kind, description?, state?}`,
immutable once constructed. -/
structure ProtocolError where
  kind : ErrorKind
  description : Option String := none
  state : Option String := none
deriving DecidableEq, Repr

/-- Modelled from the spec: redirect form of a ProtocolError, the ordered
pairs `[(error, kind_code), (state, state)?, (error_description, d)?]`
appended to the target URI as query or fragment parameters. -/
def ProtocolError.twotuples (e : ProtocolError) : PyDict :=
  [("error", PyVal.str e.kind.code)]
    ++ (match e.state with
        | Option.some s => [("state", PyVal.str s)]
        | Option.none => [])
    ++ (match e.description with
        | Option.some d => [("error_description", PyVal.str d)]
        | Option.none => [])

/-- Modelled from the spec: body (JSON) form of a ProtocolError, the
object `{error: kind_code, error_description?: d, state?: s}`,
represented as its ordered field list. -/
def ProtocolError.jsonFields (e : ProtocolError) : PyDict :=
  [("error", PyVal.str e.kind.code)]
    ++ (match e.description with
        | Option.some d => [("error_description", PyVal.str d)]
        | Option.none => [])
    ++ (match e.state with
        | Option.some s => [("state", PyVal.str s)]
        | Option.none => [])

/-- Character allowed after the first character of a URI scheme
(RFC3986: ALPHA / DIGIT / plus / minus / dot). -/
def isSchemeTailChar (c : Char) : Bool :=
  c.isAlpha || c.isDigit || c == '+' || c == '-' || c == '.'

/-- Split a character list at the first colon: the characters before it
and the characters after it, or nothing when no colon occurs. -/
def schemeSplit : List Char → Option (List Char × List Char)
  | [] => Option.none
  | c :: cs =>
      if c = ':' then
        some ([], cs)
      else
        match schemeSplit cs with
        | Option.some (s, rest) => some (c :: s, rest)
        | Option.none => Option.none

/-- Modelled from the spec: `is_absolute_uri` (imported from
`oauthlib.uri_validate`, not under src/) accepts exactly the
syntactically absolute URIs of RFC3986: a scheme (ALPHA followed by
scheme characters), a colon, and the remainder. -/
def is_absolute_uri (u : String) : Bool :=
  match schemeSplit u.toList with
  | Option.none => false
  | Option.some (scheme, _) =>
      match scheme with
      | [] => false
      | c :: cs => c.isAlpha && cs.all isSchemeTailChar

/-- The abstract collaborator interface behind `AuthorizationBase`: the
handler registry plus the policy hooks the validator consults.  The
hooks receive the raw (optional) attribute values the source passes;
`validate_client` also takes the optional grant type used by the token
flow. -/
structure AuthorizationBase where
  response_type_handlers : List String
  validate_client : Option String → Option String → Bool
  validate_scopes : Option String → Option (List String) → Bool
  validate_redirect_uri : Option String → Option String → Bool
  get_default_redirect_uri : Option String → Option String
  get_default_scopes : Option String → List String

namespace AuthorizationBase

/-- Scope step of `validate_request` (source lines 29 to 33): validate
carried scopes, else fill the default scopes. -/
def scope_step (self : AuthorizationBase) (request : Request) :
    Request × Option ProtocolError :=
  if scopesTruthy request.scopes then
    if !self.validate_scopes request.client_id request.scopes then
      (request, some { kind := .invalidScope, state := request.state })
    else
      (request, none)
  else
    ({ request with scopes := some (self.get_default_scopes request.client_id) },
     none)

/-- Redirect step of `validate_request` (source lines 35 to 45): a
carried redirect URI must be absolute and authorized; an absent one is
filled from the default, and a falsy default is AccessDenied. -/
def redirect_step (self : AuthorizationBase) (request : Request) :
    Request × Option ProtocolError :=
  if strTruthy request.redirect_uri then
    if !is_absolute_uri (request.redirect_uri.getD "") then
      (request, some { kind := .invalidRequest,
                       description := some "Non absolute redirect URI. See RFC3986",
                       state := request.state })
    else if !self.validate_redirect_uri request.client_id request.redirect_uri then
      (request, some { kind := .accessDenied, state := request.state })
    else
      (request, none)
  else
    let request := { request with
      redirect_uri := self.get_default_redirect_uri request.client_id }
    if !strTruthy request.redirect_uri then
      (request, some { kind := .accessDenied, state := request.state })
    else
      (request, none)

/-- `AuthorizationBase.validate_request` (source lines 13 to 47).  The
Python method mutates `request` in place and raises on failure; here it
returns the request as left at the point of return or raise, paired with
the raised error if any. -/
def validate_request (self : AuthorizationBase) (request : Request) :
    Request × Option ProtocolError :=
  if !strTruthy request.client_id then
    (request, some { kind := .invalidRequest,
                     description := some "Missing client_id parameter.",
                     state := request.state })
  else if !strTruthy request.response_type then
    (request, some { kind := .invalidRequest,
                     description := some "Missing response_type parameter.",
                     state := request.state })
  else if !self.validate_client request.client_id none then
    (request, some { kind := .unauthorizedClient, state := request.state })
  else if !(self.response_type_handlers.contains (request.response_type.getD "")) then
    (request, some { kind := .unsupportedResponseType, state := request.state })
  else
    match self.scope_step request with
    | (req, some e) => (req, some e)
    | (req, Option.none) => self.redirect_step req

end AuthorizationBase

/-- Target of a redirect response: the redirect URI (its text as left on
the request, possibly empty when the source would pass None) together
with the parameter pairs appended to it.  Modelled from the spec:
`add_params_to_uri` lives in `oauthlib.common`, outside src/; it appends
the ordered pairs to the URI as query parameters, or as fragment
parameters when the fragment flag is set. -/
structure URIResponse where
  base : String
  query : PyDict
  fragment : PyDict
deriving DecidableEq, Repr

/-- Modelled from the spec: `add_params_to_uri uri params fragment`
appends `params` to `uri` in query form, or in fragment form when
`fragment` is true. -/
def add_params_to_uri (uri : String) (params : PyDict)
    (fragment : Bool := false) : URIResponse :=
  if fragment then
    { base := uri, query := [], fragment := params }
  else
    { base := uri, query := params, fragment := [] }

/-- The Authorization Code grant collaborator: the shared validator hooks
plus the token-flow hooks `get_scopes` and `validate_code` (both raising
NotImplementedError in the source). -/
structure AuthorizationCodeGrant extends AuthorizationBase where
  get_scopes : Option String → Option String → List String
  validate_code : Option String → Option String → Bool

namespace AuthorizationCodeGrant

/-- `AuthorizationCodeGrant.expires_in` (source lines 67 to 69). -/
def expires_in : Nat := 3600

/-- `AuthorizationCodeGrant.create_token` (source lines 71 to 77).  The
two fresh opaque strings produced by `generate_token` are passed in;
`scopes` is the `self.scopes` attribute set by the token flow. -/
def create_token (scopes : List String) (access refresh : String) : PyDict :=
  [("access_token", PyVal.str access),
   ("refresh_token", PyVal.str refresh),
   ("expires_in", PyVal.int expires_in),
   ("scope", PyVal.str (String.intercalate " " scopes))]

/-- `AuthorizationCodeGrant.create_authorization_grant` (source lines 86
to 91): a dictionary with the fresh code, and the state when the request
carries a truthy one.  The fresh opaque code from `generate_token` is
passed in. -/
def create_authorization_grant (token : String) (request : Request) : PyDict :=
  [("code", PyVal.str token)]
    ++ (if strTruthy request.state then
          [("state", PyVal.str (request.state.getD ""))]
        else [])

/-- Result of the authorization flow: the redirect response, and the
arguments of the `save_authorization_grant` collaborator call when it
was made (client id, grant, state keyword). -/
structure AuthResult where
  response : URIResponse
  saved : Option (Option String × PyDict × Option String)
deriving DecidableEq, Repr

/-- `AuthorizationCodeGrant.create_authorization_response` (source lines
105 to 115): run the shared validator on the request; on error, return
the error twotuples appended to the (possibly mutated) redirect URI as
query parameters; on success, fabricate the grant, record the save-hook
call and return the grant items appended as query parameters. -/
def create_authorization_response (self : AuthorizationCodeGrant)
    (request : Request) (freshCode : String) : AuthResult :=
  match self.toAuthorizationBase.validate_request request with
  | (req, some e) =>
      { response := add_params_to_uri (req.redirect_uri.getD "") e.twotuples,
        saved := none }
  | (req, Option.none) =>
      let grant := create_authorization_grant freshCode req
      { response := add_params_to_uri (req.redirect_uri.getD "") grant,
        saved := some (req.client_id, grant, req.state) }

/-- Body returned by the token endpoint: either the JSON form of a
protocol error, or the JSON dump of the issued token. -/
inductive TokenEndpointResponse where
  | errorBody (fields : PyDict)
  | tokenBody (t : PyDict)
deriving DecidableEq, Repr

/-- `AuthorizationCodeGrant.create_token_response` (source lines 117 to
139): pull `code` and `redirect_uri` out of the wire parameters into the
request, run the shared validator (not `validate_token_request`); on
error return the JSON error body; on success resolve scopes through the
`get_scopes` hook, build the token, pass it through the token handler
and return it as the JSON body.  The fresh opaque strings for the access
and refresh tokens are passed in. -/
def create_token_response (self : AuthorizationCodeGrant) (request : Request)
    (token_handler : PyDict → PyDict) (access refresh : String) :
    TokenEndpointResponse :=
  let request := { request with
    code := paramsGet request.params "code",
    redirect_uri := paramsGet request.params "redirect_uri" }
  match self.toAuthorizationBase.validate_request request with
  | (_, some e) => .errorBody e.jsonFields
  | (req, Option.none) =>
      let scopes := self.get_scopes req.client req.code
      let token := create_token scopes access refresh
      let token := token_handler token
      .tokenBody token

/-- `AuthorizationCodeGrant.validate_token_request` (source lines 141 to
154): grant type must be authorization_code, a code must be present, the
client must pass the authority check for this grant type, and the code
must pass the `validate_code` collaborator check, else InvalidGrant.
Returns the raised error, if any. -/
def validate_token_request (self : AuthorizationCodeGrant)
    (request : Request) : Option ProtocolError :=
  if !(request.grant_type == some "authorization_code") then
    some { kind := .unsupportedGrantType }
  else if !strTruthy request.code then
    some { kind := .invalidRequest, description := some "Missing code parameter." }
  else if !self.validate_client request.client request.grant_type then
    some { kind := .unauthorizedClient }
  else if !self.validate_code request.client request.code then
    some { kind := .invalidGrant }
  else
    none

end AuthorizationCodeGrant

namespace ImplicitGrant

/-- `ImplicitGrant.expires_in` (source lines 162 to 164). -/
def expires_in : Nat := 3600

/-- `ImplicitGrant.create_token` (source lines 166 to 172): the token
dictionary carries the fresh access token, the fixed expiry, the
space-joined request scopes, and always a state key holding the raw
(possibly None) request state.  The fresh opaque access token from
`generate_token` is passed in. -/
def create_token (request : Request) (access : String) : PyDict :=
  [("access_token", PyVal.str access),
   ("expires_in", PyVal.int expires_in),
   ("scope", PyVal.str (String.intercalate " " (request.scopes.getD []))),
   ("state", pyOfOpt request.state)]

/-- Result of the implicit flow: the redirect response, and the
arguments of the `save_grant` collaborator call when it was made. -/
structure ImplicitResult where
  response : URIResponse
  saved : Option (Option String × PyDict × Option String)
deriving DecidableEq, Repr

/-- `ImplicitGrant.create_authorization_response` (source lines 177 to
189): run the shared validator; on error, return the error twotuples in
fragment form on the (possibly mutated) redirect URI; on success, build
the token, pass it through the token handler, record the save-hook call
and return the token items in fragment form. -/
def create_authorization_response (self : AuthorizationBase)
    (request : Request) (token_handler : PyDict → PyDict) (access : String) :
    ImplicitResult :=
  match self.validate_request request with
  | (req, some e) =>
      { response := add_params_to_uri (req.redirect_uri.getD "") e.twotuples true,
        saved := none }
  | (req, Option.none) =>
      let token := create_token req access
      let token := token_handler token
      { response := add_params_to_uri (req.redirect_uri.getD "") token true,
        saved := some (req.client_id, token, req.state) }

end ImplicitGrant

/-! Concrete fixtures used to instantiate the theorems below. -/

/-- A fully permissive collaborator with defaults for scopes and the
redirect URI, handling both response types. -/
def permissiveBase : AuthorizationBase :=
  { response_type_handlers := ["code", "token"],
    validate_client := fun _ _ => true,
    validate_scopes := fun _ _ => true,
    validate_redirect_uri := fun _ _ => true,
    get_default_redirect_uri := fun _ => some "https://default.example/cb",
    get_default_scopes := fun _ => ["read", "write"] }

/-- The permissive collaborator whose default-scope policy returns the
empty list. -/
def emptyScopeBase : AuthorizationBase :=
  { permissiveBase with get_default_scopes := fun _ => [] }

/-- The permissive collaborator that rejects every client. -/
def unauthBase : AuthorizationBase :=
  { permissiveBase with validate_client := fun _ _ => false }

/-- Permissive Authorization Code grant collaborator. -/
def permissiveGrant : AuthorizationCodeGrant :=
  { toAuthorizationBase := permissiveBase,
    get_scopes := fun _ _ => ["read"],
    validate_code := fun _ _ => true }

/-- Authorization Code grant collaborator whose code registry rejects
every presented code (as it must for a code already redeemed once). -/
def deadCodeGrant : AuthorizationCodeGrant :=
  { permissiveGrant with validate_code := fun _ _ => false }

/-- Authorization Code grant collaborator that rejects every client. -/
def unauthGrant : AuthorizationCodeGrant :=
  { permissiveGrant with toAuthorizationBase := unauthBase }

/-- The authorization request of the worked spec example. -/
def authRequest : Request :=
  { client_id := some "abc", response_type := some "code",
    redirect_uri := some "https://app.example/cb", state := some "xyz" }

/-- The same request with no client_id. -/
def requestMissingClient : Request :=
  { response_type := some "code",
    redirect_uri := some "https://app.example/cb", state := some "xyz" }

/-- A token-redemption request presenting the code deadbeef on the wire,
well-formed in every respect the shared validator checks. -/
def redemptionRequest : Request :=
  { client_id := some "abc", response_type := some "code",
    grant_type := some "authorization_code", client := some "abc",
    params := [("code", "deadbeef"), ("redirect_uri", "https://app.example/cb")] }

/-- The request derived from `redemptionRequest` as `validate_token_request`
sees it after `create_token_response` copied the wire parameters in. -/
def redemptionRequestFilled : Request :=
  { redemptionRequest with
    code := some "deadbeef",
    redirect_uri := some "https://app.example/cb" }

/-- An implicit-grant authorization request. -/
def implicitRequest : Request :=
  { client_id := some "abc", response_type := some "token",
    redirect_uri := some "https://app.example/cb", state := some "xyz" }

/-- An implicit-grant authorization request carrying no state. -/
def implicitRequestNoState : Request :=
  { client_id := some "abc", response_type := some "token",
    redirect_uri := some "https://app.example/cb" }

/-! Helper lemmas about the shared validator, shared by the claim
theorems below. -/

/-- The scope step touches only the scopes field, and only to fill the
default when the carried scopes are falsy. -/
theorem scope_step_frame (self : AuthorizationBase) (r : Request) :
    ((self.scope_step r).1 = r ∧ scopesTruthy r.scopes = true) ∨
      ((self.scope_step r).1 =
          { r with scopes := some (self.get_default_scopes r.client_id) } ∧
        scopesTruthy r.scopes = false ∧ (self.scope_step r).2 = none) := by
  cases h : scopesTruthy r.scopes
  · right
    simp [AuthorizationBase.scope_step, h]
  · left
    refine ⟨?_, rfl⟩
    cases hv : self.validate_scopes r.client_id r.scopes <;>
      simp [AuthorizationBase.scope_step, h, hv]

/-- The redirect step touches only the redirect_uri field, and only to
fill the default when the carried redirect URI is falsy. -/
theorem redirect_step_frame (self : AuthorizationBase) (r : Request) :
    ((self.redirect_step r).1 = r ∧ strTruthy r.redirect_uri = true) ∨
      ((self.redirect_step r).1 =
          { r with redirect_uri := self.get_default_redirect_uri r.client_id } ∧
        strTruthy r.redirect_uri = false) := by
  cases h : strTruthy r.redirect_uri
  · right
    refine ⟨?_, rfl⟩
    cases hd : strTruthy (self.get_default_redirect_uri r.client_id) <;>
      simp [AuthorizationBase.redirect_step, h, hd]
  · left
    refine ⟨?_, rfl⟩
    cases ha : is_absolute_uri (r.redirect_uri.getD "")
    · simp [AuthorizationBase.redirect_step, h, ha]
    · cases hv : self.validate_redirect_uri r.client_id r.redirect_uri <;>
        simp [AuthorizationBase.redirect_step, h, ha, hv]

/-- A truthy optional string is some string. -/
theorem strTruthy_isSome {o : Option String} (h : strTruthy o = true) :
    o.isSome = true := by
  cases o <;> simp_all [strTruthy]

/-- Truthy optional scopes are some list. -/
theorem scopesTruthy_isSome {o : Option (List String)} (h : scopesTruthy o = true) :
    o.isSome = true := by
  cases o <;> simp_all [scopesTruthy]

/-- On success the scope step leaves some scopes. -/
theorem scope_step_success_isSome (self : AuthorizationBase) (r : Request)
    (h : (self.scope_step r).2 = none) :
    ((self.scope_step r).1.scopes).isSome = true := by
  cases hs : scopesTruthy r.scopes
  · simp [AuthorizationBase.scope_step, hs]
  · cases hv : self.validate_scopes r.client_id r.scopes
    · exfalso
      simp [AuthorizationBase.scope_step, hs, hv] at h
    · simp only [AuthorizationBase.scope_step, hs, hv]
      simpa using scopesTruthy_isSome hs

/-- On success the redirect step leaves a truthy redirect_uri. -/
theorem redirect_step_success_truthy (self : AuthorizationBase) (r : Request)
    (h : (self.redirect_step r).2 = none) :
    strTruthy (self.redirect_step r).1.redirect_uri = true := by
  cases hru : strTruthy r.redirect_uri
  · cases hd : strTruthy (self.get_default_redirect_uri r.client_id)
    · exfalso
      simp [AuthorizationBase.redirect_step, hru, hd] at h
    · simp [AuthorizationBase.redirect_step, hru, hd]
  · cases ha : is_absolute_uri (r.redirect_uri.getD "")
    · exfalso
      simp [AuthorizationBase.redirect_step, hru, ha] at h
    · cases hv : self.validate_redirect_uri r.client_id r.redirect_uri
      · exfalso
        simp [AuthorizationBase.redirect_step, hru, ha, hv] at h
      · simp [AuthorizationBase.redirect_step, hru, ha, hv]

/-- The early checks of the validator: when one of the four leading
checks fails, the request is returned unchanged with the matching error. -/
theorem validate_request_early (self : AuthorizationBase) (r : Request) :
    (strTruthy r.client_id = false →
      self.validate_request r =
        (r, some { kind := .invalidRequest,
                   description := some "Missing client_id parameter.",
                   state := r.state })) ∧
    (strTruthy r.client_id = true → strTruthy r.response_type = false →
      self.validate_request r =
        (r, some { kind := .invalidRequest,
                   description := some "Missing response_type parameter.",
                   state := r.state })) ∧
    (strTruthy r.client_id = true → strTruthy r.response_type = true →
      self.validate_client r.client_id none = false →
      self.validate_request r =
        (r, some { kind := .unauthorizedClient, state := r.state })) ∧
    (strTruthy r.client_id = true → strTruthy r.response_type = true →
      self.validate_client r.client_id none = true →
      self.response_type_handlers.contains (r.response_type.getD "") = false →
      self.validate_request r =
        (r, some { kind := .unsupportedResponseType, state := r.state })) := by
  refine ⟨?_, ?_, ?_, ?_⟩
  · intro h1
    simp [AuthorizationBase.validate_request, h1]
  · intro h1 h2
    simp [AuthorizationBase.validate_request, h1, h2]
  · intro h1 h2 h3
    simp [AuthorizationBase.validate_request, h1, h2, h3]
  · intro h1 h2 h3 h4
    have h4m : ¬(r.response_type.getD "" ∈ self.response_type_handlers) := by
      simpa using h4
    simp [AuthorizationBase.validate_request, h1, h2, h3, h4m]

/-- When the four leading checks pass, the validator is the scope step
followed by the redirect step. -/
theorem validate_request_eq_steps (self : AuthorizationBase) (r : Request)
    (h1 : strTruthy r.client_id = true) (h2 : strTruthy r.response_type = true)
    (h3 : self.validate_client r.client_id none = true)
    (h4 : self.response_type_handlers.contains (r.response_type.getD "") = true) :
    self.validate_request r =
      match self.scope_step r with
      | (req, some e) => (req, some e)
      | (req, Option.none) => self.redirect_step req := by
  have h4m : r.response_type.getD "" ∈ self.response_type_handlers := by
    simpa using h4
  simp [AuthorizationBase.validate_request, h1, h2, h3, h4m]

/-- Characterization of validator success: all four leading checks
passed, the scope step passed, and the result is the redirect step
applied to the scope-step result. -/
theorem validate_request_success (self : AuthorizationBase) (r : Request)
    (h : (self.validate_request r).2 = none) :
    strTruthy r.client_id = true ∧ strTruthy r.response_type = true ∧
    self.validate_client r.client_id none = true ∧
    self.response_type_handlers.contains (r.response_type.getD "") = true ∧
    (self.scope_step r).2 = none ∧
    self.validate_request r = self.redirect_step (self.scope_step r).1 := by
  cases h1 : strTruthy r.client_id
  · exfalso
    rw [(validate_request_early self r).1 h1] at h
    simp at h
  cases h2 : strTruthy r.response_type
  · exfalso
    rw [(validate_request_early self r).2.1 h1 h2] at h
    simp at h
  cases h3 : self.validate_client r.client_id none
  · exfalso
    rw [(validate_request_early self r).2.2.1 h1 h2 h3] at h
    simp at h
  cases h4 : self.response_type_handlers.contains (r.response_type.getD "")
  · exfalso
    rw [(validate_request_early self r).2.2.2 h1 h2 h3 h4] at h
    simp at h
  have heq := validate_request_eq_steps self r h1 h2 h3 h4
  rcases hsc : self.scope_step r with ⟨req, eopt⟩
  cases eopt with
  | some e =>
      exfalso
      rw [heq, hsc] at h
      simp at h
  | none =>
      refine ⟨rfl, rfl, rfl, rfl, by simp [hsc], ?_⟩
      rw [heq, hsc]

/-- Frame property of the whole validator: every field except scopes and
redirect_uri is preserved; those two change only to the collaborator
default and only when the carried value was falsy; on success both are
populated. -/
theorem validate_request_frame (self : AuthorizationBase) (r : Request) :
    ((self.validate_request r).1.client_id = r.client_id ∧
      (self.validate_request r).1.response_type = r.response_type ∧
      (self.validate_request r).1.state = r.state ∧
      (self.validate_request r).1.grant_type = r.grant_type ∧
      (self.validate_request r).1.code = r.code ∧
      (self.validate_request r).1.client = r.client ∧
      (self.validate_request r).1.params = r.params) ∧
    ((self.validate_request r).1.scopes = r.scopes ∨
      ((self.validate_request r).1.scopes =
          some (self.get_default_scopes r.client_id) ∧
        scopesTruthy r.scopes = false)) ∧
    ((self.validate_request r).1.redirect_uri = r.redirect_uri ∨
      ((self.validate_request r).1.redirect_uri =
          self.get_default_redirect_uri r.client_id ∧
        strTruthy r.redirect_uri = false)) ∧
    ((self.validate_request r).2 = none →
      ((self.validate_request r).1.scopes).isSome = true ∧
      strTruthy (self.validate_request r).1.redirect_uri = true) := by
  cases h1 : strTruthy r.client_id
  · rw [(validate_request_early self r).1 h1]
    exact ⟨⟨rfl, rfl, rfl, rfl, rfl, rfl, rfl⟩, Or.inl rfl, Or.inl rfl,
      by intro hn; simp at hn⟩
  cases h2 : strTruthy r.response_type
  · rw [(validate_request_early self r).2.1 h1 h2]
    exact ⟨⟨rfl, rfl, rfl, rfl, rfl, rfl, rfl⟩, Or.inl rfl, Or.inl rfl,
      by intro hn; simp at hn⟩
  cases h3 : self.validate_client r.client_id none
  · rw [(validate_request_early self r).2.2.1 h1 h2 h3]
    exact ⟨⟨rfl, rfl, rfl, rfl, rfl, rfl, rfl⟩, Or.inl rfl, Or.inl rfl,
      by intro hn; simp at hn⟩
  cases h4 : self.response_type_handlers.contains (r.response_type.getD "")
  · rw [(validate_request_early self r).2.2.2 h1 h2 h3 h4]
    exact ⟨⟨rfl, rfl, rfl, rfl, rfl, rfl, rfl⟩, Or.inl rfl, Or.inl rfl,
      by intro hn; simp at hn⟩
  have hsplit :
      (self.validate_request r = self.scope_step r ∧
        (self.scope_step r).2 ≠ none) ∨
      ((self.scope_step r).2 = none ∧
        self.validate_request r = self.redirect_step (self.scope_step r).1) := by
    rw [validate_request_eq_steps self r h1 h2 h3 h4]
    rcases hsc : self.scope_step r with ⟨req, eopt⟩
    cases eopt with
    | some e => exact Or.inl ⟨rfl, by simp⟩
    | none => exact Or.inr ⟨rfl, rfl⟩
  rcases hsplit with ⟨heq, hne⟩ | ⟨hnone, heq⟩
  · rw [heq]
    rcases scope_step_frame self r with ⟨hr, _⟩ | ⟨hr, hst, _⟩
    · rw [hr]
      exact ⟨⟨rfl, rfl, rfl, rfl, rfl, rfl, rfl⟩, Or.inl rfl, Or.inl rfl,
        fun hn => absurd hn hne⟩
    · rw [hr]
      exact ⟨⟨rfl, rfl, rfl, rfl, rfl, rfl, rfl⟩, Or.inr ⟨rfl, hst⟩, Or.inl rfl,
        fun hn => absurd hn hne⟩
  · rw [heq]
    have hsuccS := scope_step_success_isSome self r hnone
    rcases scope_step_frame self r with ⟨hr, _⟩ | ⟨hr, hst, _⟩ <;>
      rcases redirect_step_frame self (self.scope_step r).1 with ⟨hr2, _⟩ | ⟨hr2, hfr⟩
    · rw [hr] at hr2 hsuccS ⊢
      rw [hr2]
      refine ⟨⟨rfl, rfl, rfl, rfl, rfl, rfl, rfl⟩, Or.inl rfl, Or.inl rfl,
        fun hn => ⟨hsuccS, ?_⟩⟩
      rw [← hr2]
      exact redirect_step_success_truthy self _ hn
    · rw [hr] at hr2 hfr hsuccS ⊢
      rw [hr2]
      refine ⟨⟨rfl, rfl, rfl, rfl, rfl, rfl, rfl⟩, Or.inl rfl, Or.inr ⟨rfl, hfr⟩,
        fun hn => ⟨hsuccS, ?_⟩⟩
      rw [← hr2]
      exact redirect_step_success_truthy self _ hn
    · rw [hr] at hr2 hsuccS ⊢
      rw [hr2]
      refine ⟨⟨rfl, rfl, rfl, rfl, rfl, rfl, rfl⟩, Or.inr ⟨rfl, hst⟩, Or.inl rfl,
        fun hn => ⟨hsuccS, ?_⟩⟩
      rw [← hr2]
      exact redirect_step_success_truthy self _ hn
    · rw [hr] at hr2 hfr hsuccS ⊢
      rw [hr2]
      refine ⟨⟨rfl, rfl, rfl, rfl, rfl, rfl, rfl⟩, Or.inr ⟨rfl, hst⟩,
        Or.inr ⟨rfl, hfr⟩, fun hn => ⟨hsuccS, ?_⟩⟩
      rw [← hr2]
      exact redirect_step_success_truthy self _ hn

/-! Claim theorems. -/

/-- C2: the shared validator applies its checks in the fixed order —
(1) client_id present else InvalidRequest, (2) response_type present
else InvalidRequest, (3) client authority else UnauthorizedClient,
(4) response_type supported else UnsupportedResponseType, (5) scope
validation else InvalidScope, (6) redirect URI absoluteness
(InvalidRequest), authorization (AccessDenied) or defaulting
(AccessDenied when no default) — short-circuiting on the first failure;
and a request missing client_id or response_type fails with
InvalidRequest identically under every collaborator, before any hook is
consulted. -/
theorem validator_check_order (self : AuthorizationBase) (r : Request) :
    (strTruthy r.client_id = false →
      self.validate_request r =
        (r, some { kind := .invalidRequest,
                   description := some "Missing client_id parameter.",
                   state := r.state })) ∧
    (strTruthy r.client_id = true → strTruthy r.response_type = false →
      self.validate_request r =
        (r, some { kind := .invalidRequest,
                   description := some "Missing response_type parameter.",
                   state := r.state })) ∧
    (strTruthy r.client_id = true → strTruthy r.response_type = true →
      self.validate_client r.client_id none = false →
      self.validate_request r =
        (r, some { kind := .unauthorizedClient, state := r.state })) ∧
    (strTruthy r.client_id = true → strTruthy r.response_type = true →
      self.validate_client r.client_id none = true →
      self.response_type_handlers.contains (r.response_type.getD "") = false →
      self.validate_request r =
        (r, some { kind := .unsupportedResponseType, state := r.state })) ∧
    (strTruthy r.client_id = true → strTruthy r.response_type = true →
      self.validate_client r.client_id none = true →
      self.response_type_handlers.contains (r.response_type.getD "") = true →
      scopesTruthy r.scopes = true →
      self.validate_scopes r.client_id r.scopes = false →
      self.validate_request r =
        (r, some { kind := .invalidScope, state := r.state })) ∧
    (strTruthy r.client_id = true → strTruthy r.response_type = true →
      self.validate_client r.client_id none = true →
      self.response_type_handlers.contains (r.response_type.getD "") = true →
      (scopesTruthy r.scopes = true →
        self.validate_scopes r.client_id r.scopes = true) →
      strTruthy r.redirect_uri = true →
      is_absolute_uri (r.redirect_uri.getD "") = false →
      (self.validate_request r).2 =
        some { kind := .invalidRequest,
               description := some "Non absolute redirect URI. See RFC3986",
               state := r.state }) ∧
    (strTruthy r.client_id = true → strTruthy r.response_type = true →
      self.validate_client r.client_id none = true →
      self.response_type_handlers.contains (r.response_type.getD "") = true →
      (scopesTruthy r.scopes = true →
        self.validate_scopes r.client_id r.scopes = true) →
      strTruthy r.redirect_uri = true →
      is_absolute_uri (r.redirect_uri.getD "") = true →
      self.validate_redirect_uri r.client_id r.redirect_uri = false →
      (self.validate_request r).2 =
        some { kind := .accessDenied, state := r.state }) ∧
    (strTruthy r.client_id = true → strTruthy r.response_type = true →
      self.validate_client r.client_id none = true →
      self.response_type_handlers.contains (r.response_type.getD "") = true →
      (scopesTruthy r.scopes = true →
        self.validate_scopes r.client_id r.scopes = true) →
      strTruthy r.redirect_uri = false →
      strTruthy (self.get_default_redirect_uri r.client_id) = false →
      (self.validate_request r).2 =
        some { kind := .accessDenied, state := r.state }) ∧
    ((strTruthy r.client_id = false ∨ strTruthy r.response_type = false) →
      ∀ other : AuthorizationBase,
        self.validate_request r = other.validate_request r) := by
  refine ⟨(validate_request_early self r).1, (validate_request_early self r).2.1,
    (validate_request_early self r).2.2.1, (validate_request_early self r).2.2.2,
    ?_, ?_, ?_, ?_, ?_⟩
  · intro h1 h2 h3 h4 hs hv
    rw [validate_request_eq_steps self r h1 h2 h3 h4]
    have hstep : self.scope_step r =
        (r, some { kind := .invalidScope, state := r.state }) := by
      simp [AuthorizationBase.scope_step, hs, hv]
    rw [hstep]
  · intro h1 h2 h3 h4 hsok hru habs
    rw [validate_request_eq_steps self r h1 h2 h3 h4]
    cases hs : scopesTruthy r.scopes
    · have hstep : self.scope_step r =
          ({ r with scopes := some (self.get_default_scopes r.client_id) },
           none) := by
        simp [AuthorizationBase.scope_step, hs]
      rw [hstep]
      simp [AuthorizationBase.redirect_step, hru, habs]
    · have hstep : self.scope_step r = (r, none) := by
        simp [AuthorizationBase.scope_step, hs, hsok hs]
      rw [hstep]
      simp [AuthorizationBase.redirect_step, hru, habs]
  · intro h1 h2 h3 h4 hsok hru habs hvr
    rw [validate_request_eq_steps self r h1 h2 h3 h4]
    cases hs : scopesTruthy r.scopes
    · have hstep : self.scope_step r =
          ({ r with scopes := some (self.get_default_scopes r.client_id) },
           none) := by
        simp [AuthorizationBase.scope_step, hs]
      rw [hstep]
      simp [AuthorizationBase.redirect_step, hru, habs, hvr]
    · have hstep : self.scope_step r = (r, none) := by
        simp [AuthorizationBase.scope_step, hs, hsok hs]
      rw [hstep]
      simp [AuthorizationBase.redirect_step, hru, habs, hvr]
  · intro h1 h2 h3 h4 hsok hru hdef
    rw [validate_request_eq_steps self r h1 h2 h3 h4]
    cases hs : scopesTruthy r.scopes
    · have hstep : self.scope_step r =
          ({ r with scopes := some (self.get_default_scopes r.client_id) },
           none) := by
        simp [AuthorizationBase.scope_step, hs]
      rw [hstep]
      simp [AuthorizationBase.redirect_step, hru, hdef]
    · have hstep : self.scope_step r = (r, none) := by
        simp [AuthorizationBase.scope_step, hs, hsok hs]
      rw [hstep]
      simp [AuthorizationBase.redirect_step, hru, hdef]
  · intro hmiss other
    rcases hmiss with h | h
    · rw [(validate_request_early self r).1 h,
        (validate_request_early other r).1 h]
    · cases h1 : strTruthy r.client_id
      · rw [(validate_request_early self r).1 h1,
          (validate_request_early other r).1 h1]
      · rw [(validate_request_early self r).2.1 h1 h,
          (validate_request_early other r).2.1 h1 h]

/-- Witness for C2: a request missing client_id fails with the
InvalidRequest error unchanged, identically for two different
collaborators. -/
theorem validator_check_order_witness :
    strTruthy requestMissingClient.client_id = false ∧
    permissiveBase.validate_request requestMissingClient =
      (requestMissingClient,
       some { kind := .invalidRequest,
              description := some "Missing client_id parameter.",
              state := some "xyz" }) ∧
    permissiveBase.validate_request requestMissingClient =
      emptyScopeBase.validate_request requestMissingClient := by
  refine ⟨rfl, ?_, ?_⟩
  · exact (validator_check_order permissiveBase requestMissingClient).1 rfl
  · exact (validator_check_order permissiveBase
      requestMissingClient).2.2.2.2.2.2.2.2 (Or.inl rfl) emptyScopeBase

/-- C6: the shared validator mutates only the scopes and redirect_uri
fields of the Request, and only to fill the collaborator defaults when
the carried values were falsy; every other field is unchanged, and on
success both scopes and redirect_uri are populated. -/
theorem validator_frame_effect (self : AuthorizationBase) (r : Request) :
    ((self.validate_request r).1.client_id = r.client_id ∧
      (self.validate_request r).1.response_type = r.response_type ∧
      (self.validate_request r).1.state = r.state ∧
      (self.validate_request r).1.grant_type = r.grant_type ∧
      (self.validate_request r).1.code = r.code ∧
      (self.validate_request r).1.client = r.client ∧
      (self.validate_request r).1.params = r.params) ∧
    ((self.validate_request r).1.scopes = r.scopes ∨
      ((self.validate_request r).1.scopes =
          some (self.get_default_scopes r.client_id) ∧
        scopesTruthy r.scopes = false)) ∧
    ((self.validate_request r).1.redirect_uri = r.redirect_uri ∨
      ((self.validate_request r).1.redirect_uri =
          self.get_default_redirect_uri r.client_id ∧
        strTruthy r.redirect_uri = false)) ∧
    ((self.validate_request r).2 = none →
      ((self.validate_request r).1.scopes).isSome = true ∧
      strTruthy (self.validate_request r).1.redirect_uri = true) :=
  validate_request_frame self r

/-- Witness for C6: on a concrete successful validation the state is
preserved and scopes and redirect_uri come out populated. -/
theorem validator_frame_effect_witness :
    (permissiveBase.validate_request authRequest).2 = none ∧
    ((permissiveBase.validate_request authRequest).1.scopes).isSome = true ∧
    strTruthy (permissiveBase.validate_request authRequest).1.redirect_uri = true ∧
    (permissiveBase.validate_request authRequest).1.state = authRequest.state := by
  have h : (permissiveBase.validate_request authRequest).2 = none := by decide
  exact ⟨h, ((validator_frame_effect permissiveBase authRequest).2.2.2 h).1,
    ((validator_frame_effect permissiveBase authRequest).2.2.2 h).2,
    (validator_frame_effect permissiveBase authRequest).1.2.2.1⟩

/-- C7: both grant components fix expires_in at the constant 3600, a
positive integer, and every token either builds carries that value. -/
theorem expires_in_constant :
    AuthorizationCodeGrant.expires_in = 3600 ∧
    ImplicitGrant.expires_in = 3600 ∧
    0 < AuthorizationCodeGrant.expires_in ∧
    0 < ImplicitGrant.expires_in ∧
    (∀ (scopes : List String) (access refresh : String),
      pyGet (AuthorizationCodeGrant.create_token scopes access refresh)
        "expires_in" = some (PyVal.int 3600)) ∧
    (∀ (r : Request) (access : String),
      pyGet (ImplicitGrant.create_token r access) "expires_in" =
        some (PyVal.int 3600)) := by
  refine ⟨rfl, rfl, by decide, by decide, ?_, ?_⟩
  · intro scopes access refresh
    rfl
  · intro r access
    rfl

/-- C8: the redirect form and the JSON form of a ProtocolError agree on
state — both carry the supplied state, and both omit the key entirely
when none was supplied. -/
theorem protocol_error_state_agreement (e : ProtocolError) :
    pyGet e.twotuples "state" = e.state.map PyVal.str ∧
    pyGet e.jsonFields "state" = e.state.map PyVal.str := by
  cases e with
  | mk kind description state =>
      cases state <;> cases description <;> exact ⟨rfl, rfl⟩

/-- C3 counterexample: for the worked request with an unauthorized
client and a collaborator that does have a default redirect URI, the
error redirect targets the request-supplied redirect URI, not the
collaborator default. -/
theorem unauthorized_redirect_counterexample :
    (unauthGrant.create_authorization_response authRequest "FRESH").response =
      { base := "https://app.example/cb",
        query := [("error", PyVal.str "unauthorized_client"),
                  ("state", PyVal.str "xyz")],
        fragment := [] } ∧
    unauthGrant.get_default_redirect_uri (some "abc") =
      some "https://default.example/cb" ∧
    (unauthGrant.create_authorization_response authRequest "FRESH").response.base ≠
      "https://default.example/cb" := by
  refine ⟨by decide, rfl, by decide⟩

/-- C3 amended: the unauthorized_client error redirect for the worked
request goes to the request-supplied redirect URI carrying
error=unauthorized_client and state=xyz, for every collaborator that
rejects the client — the client-authority failure precedes redirect
resolution, so the default redirect URI is never consulted. -/
theorem unauthorized_redirect_amended (self : AuthorizationCodeGrant)
    (h : self.validate_client (some "abc") none = false) (t : String) :
    self.create_authorization_response authRequest t =
      { response := { base := "https://app.example/cb",
                      query := [("error", PyVal.str "unauthorized_client"),
                                ("state", PyVal.str "xyz")],
                      fragment := [] },
        saved := none } := by
  have he := (validate_request_early self.toAuthorizationBase authRequest).2.2.1
    (by decide) (by decide) h
  unfold AuthorizationCodeGrant.create_authorization_response
  rw [he]
  rfl

/-- Witness for the amended C3 at a concrete rejecting collaborator. -/
theorem unauthorized_redirect_amended_witness :
    unauthGrant.validate_client (some "abc") none = false ∧
    unauthGrant.create_authorization_response authRequest "FRESH" =
      { response := { base := "https://app.example/cb",
                      query := [("error", PyVal.str "unauthorized_client"),
                                ("state", PyVal.str "xyz")],
                      fragment := [] },
        saved := none } :=
  ⟨rfl, unauthorized_redirect_amended unauthGrant rfl "FRESH"⟩

/-- C9 counterexample: with a collaborator whose default-scope policy
returns the empty list, the validator succeeds on a scopeless request
and resolves the scopes to the empty list. -/
theorem empty_default_scopes_counterexample :
    (emptyScopeBase.validate_request authRequest).2 = none ∧
    (emptyScopeBase.validate_request authRequest).1.scopes = some [] ∧
    scopesTruthy (emptyScopeBase.validate_request authRequest).1.scopes =
      false := by
  refine ⟨by decide, by decide, by decide⟩

/-- C9 amended: on validator success the resolved scopes are non-empty
whenever the collaborator default-scope policy is non-empty for the
client (the validator does not re-check emptiness after defaulting, so
the unconditional claim fails). -/
theorem resolved_scopes_nonempty_amended (self : AuthorizationBase)
    (r : Request) (h : (self.validate_request r).2 = none)
    (hne : self.get_default_scopes r.client_id ≠ []) :
    scopesTruthy (self.validate_request r).1.scopes = true := by
  rcases validate_request_success self r h with ⟨_, _, _, _, hsc, heq⟩
  have hgoal : scopesTruthy ((self.scope_step r).1.scopes) = true := by
    cases hs0 : scopesTruthy r.scopes
    · simp only [AuthorizationBase.scope_step, hs0, Bool.false_eq_true,
        if_false]
      simp [scopesTruthy, hne]
    · cases hv : self.validate_scopes r.client_id r.scopes
      · exfalso
        simp [AuthorizationBase.scope_step, hs0, hv] at hsc
      · simp [AuthorizationBase.scope_step, hs0, hv]
  rw [heq]
  rcases redirect_step_frame self (self.scope_step r).1 with ⟨hr2, _⟩ | ⟨hr2, _⟩ <;>
    rw [hr2] <;> simpa using hgoal

/-- Witness for the amended C9 at a concrete collaborator with
non-empty default scopes. -/
theorem resolved_scopes_nonempty_amended_witness :
    (permissiveBase.validate_request authRequest).2 = none ∧
    permissiveBase.get_default_scopes authRequest.client_id ≠ [] ∧
    scopesTruthy (permissiveBase.validate_request authRequest).1.scopes =
      true :=
  ⟨by decide, by decide,
    resolved_scopes_nonempty_amended permissiveBase authRequest (by decide)
      (by decide)⟩

/-- C4: on validator success the Authorization Code grant fabricates a
grant holding the fresh code and — exactly when the request carried a
truthy state — the identical state, records the save-hook call keyed by
the client id and carrying the state, and returns the grant appended to
the resolved redirect URI as query parameters, never as a fragment. -/
theorem authorization_success_response (self : AuthorizationCodeGrant)
    (r r' : Request) (t : String)
    (h : self.toAuthorizationBase.validate_request r = (r', none)) :
    (self.create_authorization_response r t).response =
      { base := r'.redirect_uri.getD "",
        query := AuthorizationCodeGrant.create_authorization_grant t r',
        fragment := [] } ∧
    (self.create_authorization_response r t).saved =
      some (r'.client_id,
        AuthorizationCodeGrant.create_authorization_grant t r', r'.state) ∧
    AuthorizationCodeGrant.create_authorization_grant t r' =
      [("code", PyVal.str t)] ++
        (if strTruthy r.state then [("state", PyVal.str (r.state.getD ""))]
         else []) ∧
    r'.state = r.state ∧ r'.client_id = r.client_id ∧
    pyGet (self.create_authorization_response r t).response.query "code" =
      some (PyVal.str t) ∧
    (strTruthy r.state = true →
      pyGet (self.create_authorization_response r t).response.query "state" =
        some (PyVal.str (r.state.getD ""))) := by
  have hstate : r'.state = r.state := by
    have hf := (validate_request_frame self.toAuthorizationBase r).1.2.2.1
    rw [h] at hf
    exact hf
  have hcid : r'.client_id = r.client_id := by
    have hf := (validate_request_frame self.toAuthorizationBase r).1.1
    rw [h] at hf
    exact hf
  have hresp : self.create_authorization_response r t =
      { response := { base := r'.redirect_uri.getD "",
                      query := AuthorizationCodeGrant.create_authorization_grant t r',
                      fragment := [] },
        saved := some (r'.client_id,
          AuthorizationCodeGrant.create_authorization_grant t r', r'.state) } := by
    unfold AuthorizationCodeGrant.create_authorization_response
    rw [h]
    rfl
  refine ⟨by rw [hresp], by rw [hresp], ?_, hstate, hcid, ?_, ?_⟩
  · rw [AuthorizationCodeGrant.create_authorization_grant, hstate]
  · rw [hresp]
    rfl
  · intro hst
    rw [hresp]
    show pyGet (AuthorizationCodeGrant.create_authorization_grant t r') "state" = _
    rw [AuthorizationCodeGrant.create_authorization_grant, hstate]
    simp [pyGet, hst]

/-- Witness for C4 on the worked example request with a permissive
collaborator. -/
theorem authorization_success_response_witness :
    permissiveBase.validate_request authRequest =
      ({ authRequest with scopes := some ["read", "write"] }, none) ∧
    (permissiveGrant.create_authorization_response authRequest "FRESH").response =
      { base := "https://app.example/cb",
        query := [("code", PyVal.str "FRESH"), ("state", PyVal.str "xyz")],
        fragment := [] } ∧
    (permissiveGrant.create_authorization_response authRequest "FRESH").saved =
      some (some "abc",
        [("code", PyVal.str "FRESH"), ("state", PyVal.str "xyz")],
        some "xyz") := by
  have h : permissiveBase.validate_request authRequest =
      ({ authRequest with scopes := some ["read", "write"] }, none) := by decide
  have hmain := authorization_success_response permissiveGrant authRequest
    { authRequest with scopes := some ["read", "write"] } "FRESH" h
  exact ⟨h, hmain.1, hmain.2.1⟩

/-- C5: the Implicit grant answers every request in fragment form and
never in query form — the response query is always empty; an error is
delivered as the error twotuples on the resolved redirect URI fragment;
a success (shown through the identity token handler) has a fragment
equal to the built token, which carries access_token, the fixed
expires_in 3600 and the space-joined scopes. -/
theorem implicit_fragment_delivery (self : AuthorizationBase) (r : Request)
    (th : PyDict → PyDict) (a : String) :
    (ImplicitGrant.create_authorization_response self r th a).response.query =
      [] ∧
    (∀ r' e, self.validate_request r = (r', some e) →
      (ImplicitGrant.create_authorization_response self r th a).response =
        { base := r'.redirect_uri.getD "", query := [],
          fragment := e.twotuples }) ∧
    (∀ r', self.validate_request r = (r', none) →
      (ImplicitGrant.create_authorization_response self r (fun x => x)
          a).response.fragment = ImplicitGrant.create_token r' a ∧
      pyGet (ImplicitGrant.create_token r' a) "access_token" =
        some (PyVal.str a) ∧
      pyGet (ImplicitGrant.create_token r' a) "expires_in" =
        some (PyVal.int 3600) ∧
      pyGet (ImplicitGrant.create_token r' a) "scope" =
        some (PyVal.str (String.intercalate " " (r'.scopes.getD [])))) := by
  refine ⟨?_, ?_, ?_⟩
  · rcases hv : self.validate_request r with ⟨r', eopt⟩
    unfold ImplicitGrant.create_authorization_response
    rw [hv]
    cases eopt <;> rfl
  · intro r' e hv
    unfold ImplicitGrant.create_authorization_response
    rw [hv]
    rfl
  · intro r' hv
    refine ⟨?_, rfl, rfl, rfl⟩
    unfold ImplicitGrant.create_authorization_response
    rw [hv]
    rfl

/-- Witness for C5: success and error outcomes on concrete requests. -/
theorem implicit_fragment_delivery_witness :
    permissiveBase.validate_request implicitRequest =
      ({ implicitRequest with scopes := some ["read", "write"] }, none) ∧
    (ImplicitGrant.create_authorization_response permissiveBase
        implicitRequest (fun x => x) "ACC").response.fragment =
      ImplicitGrant.create_token
        { implicitRequest with scopes := some ["read", "write"] } "ACC" ∧
    (ImplicitGrant.create_authorization_response permissiveBase
        requestMissingClient (fun x => x) "ACC").response =
      { base := "https://app.example/cb", query := [],
        fragment := ProtocolError.twotuples
          { kind := .invalidRequest,
            description := some "Missing client_id parameter.",
            state := some "xyz" } } := by
  have h : permissiveBase.validate_request implicitRequest =
      ({ implicitRequest with scopes := some ["read", "write"] }, none) := by
    decide
  refine ⟨h, ?_, ?_⟩
  · exact ((implicit_fragment_delivery permissiveBase implicitRequest
      (fun x => x) "ACC").2.2 _ h).1
  · exact (implicit_fragment_delivery permissiveBase requestMissingClient
      (fun x => x) "ACC").2.1 requestMissingClient
      { kind := .invalidRequest,
        description := some "Missing client_id parameter.",
        state := some "xyz" } (by decide)

/-- C10: the Implicit token always carries a state key — holding the
None value when the request supplied no state — so the success fragment
always has a state parameter; the Authorization Code grant dictionary,
by contrast, carries state exactly when the request carried a truthy
one. -/
theorem implicit_state_key_always_present (r : Request) (a t : String) :
    pyGet (ImplicitGrant.create_token r a) "state" = some (pyOfOpt r.state) ∧
    (r.state = none →
      pyGet (ImplicitGrant.create_token r a) "state" = some PyVal.none) ∧
    (∀ (self : AuthorizationBase) (r' : Request),
      self.validate_request r = (r', none) →
      pyGet (ImplicitGrant.create_authorization_response self r (fun x => x)
          a).response.fragment "state" = some (pyOfOpt r.state)) ∧
    (strTruthy r.state = false →
      pyGet (AuthorizationCodeGrant.create_authorization_grant t r) "state" =
        none) ∧
    (strTruthy r.state = true →
      pyGet (AuthorizationCodeGrant.create_authorization_grant t r) "state" =
        some (PyVal.str (r.state.getD ""))) := by
  refine ⟨rfl, ?_, ?_, ?_, ?_⟩
  · intro h
    rw [show pyGet (ImplicitGrant.create_token r a) "state" =
        some (pyOfOpt r.state) from rfl, h]
    rfl
  · intro self r' hv
    have hst : r'.state = r.state := by
      have hf := (validate_request_frame self r).1.2.2.1
      rw [hv] at hf
      exact hf
    have hfrag : (ImplicitGrant.create_authorization_response self r
        (fun x => x) a).response.fragment = ImplicitGrant.create_token r' a := by
      unfold ImplicitGrant.create_authorization_response
      rw [hv]
      rfl
    rw [hfrag, show pyGet (ImplicitGrant.create_token r' a) "state" =
        some (pyOfOpt r'.state) from rfl, hst]
  · intro h
    simp [AuthorizationCodeGrant.create_authorization_grant, h, pyGet]
  · intro h
    simp [AuthorizationCodeGrant.create_authorization_grant, h, pyGet]

/-- Witness for C10 on a stateless implicit request. -/
theorem implicit_state_key_always_present_witness :
    implicitRequestNoState.state = none ∧
    pyGet (ImplicitGrant.create_token implicitRequestNoState "ACC") "state" =
      some PyVal.none ∧
    (permissiveBase.validate_request implicitRequestNoState).2 = none ∧
    pyGet (ImplicitGrant.create_authorization_response permissiveBase
        implicitRequestNoState (fun x => x) "ACC").response.fragment "state" =
      some PyVal.none ∧
    pyGet (AuthorizationCodeGrant.create_authorization_grant "FRESH"
        implicitRequestNoState) "state" = none := by
  refine ⟨rfl, ?_, by decide, ?_, ?_⟩
  · exact (implicit_state_key_always_present implicitRequestNoState "ACC"
      "FRESH").2.1 rfl
  · exact (implicit_state_key_always_present implicitRequestNoState "ACC"
      "FRESH").2.2.1 permissiveBase
      { implicitRequestNoState with scopes := some ["read", "write"] }
      (by decide)
  · exact (implicit_state_key_always_present implicitRequestNoState "ACC"
      "FRESH").2.2.2.1 rfl

/-- C1 (code bug): `create_token_response` never consults the
validate_code hook — it runs the shared validator instead of
`validate_token_request`.  With a collaborator that rejects every
presented code (as the contract requires after a first redemption), the
redemption request is still answered with a token body, even though
`validate_token_request` (present in the source but never invoked by
`create_token_response`) maps exactly this input to InvalidGrant; and
the outcome of `create_token_response` is identical under any
substitution of the validate_code hook. -/
theorem token_redemption_skips_code_check :
    deadCodeGrant.create_token_response redemptionRequest (fun t => t)
        "ACC" "REF" =
      .tokenBody [("access_token", PyVal.str "ACC"),
                  ("refresh_token", PyVal.str "REF"),
                  ("expires_in", PyVal.int 3600),
                  ("scope", PyVal.str "read")] ∧
    deadCodeGrant.validate_code (some "abc") (some "deadbeef") = false ∧
    deadCodeGrant.validate_token_request redemptionRequestFilled =
      some { kind := .invalidGrant } ∧
    (∀ (g : AuthorizationCodeGrant)
      (vc : Option String → Option String → Bool) (r : Request)
      (th : PyDict → PyDict) (a rf : String),
      ({ g with validate_code := vc }
          : AuthorizationCodeGrant).create_token_response r th a rf =
        g.create_token_response r th a rf) := by
  refine ⟨by decide, rfl, by decide, ?_⟩
  intro g vc r th a rf
  rfl
